import Mathlib

/-!
Verification development for the BananaBath retrieval core
(src/search.py and src/design/search.py).

Strings are modelled as `List Char`.  Similarity scores (numpy floats in
the source) are modelled as rationals `ℚ`; every claim checked here is
about comparisons, ordering and exact arithmetic on the scores, all of
which the rationals represent faithfully (the threshold 0.5 and the
penalty weight 1.0 are exactly representable floats).
-/

namespace BananaBath

/-! ### Query parser (get_structured_query, src/search.py lines 84-132)

The source builds a regex with
  re.compile(" " + "|".join(re.escape(t) for t in negative_triggers) + " ", re.IGNORECASE)
(the source writes the two spaces as raw string literals).  Because regex
alternation binds looser than concatenation, the leading space belongs
only to the FIRST alternative ("but not") and the trailing space only to
the LAST ("excluding").  The compiled pattern is therefore the ordered
alternation
   " but not" | "without" | "and not" | "except" | "do not have"
 | the contracted form of "do not have" | "not including" | "excluding "
and `re.search` returns the leftmost position at which some alternative
matches, taking the first alternative in listed order at that position.
The embedding below reproduces exactly this. -/

/-- Case-insensitive character comparison, as re.IGNORECASE gives for the
ASCII-only trigger phrases. -/
def charEqCI (a b : Char) : Bool := a.toLower == b.toLower

/-- Does the pattern (first argument) match at the head of the text
(second argument), case-insensitively? -/
def startsWithCI : List Char → List Char → Bool
  | [], _ => true
  | _ :: _, [] => false
  | p :: ps, c :: cs => charEqCI p c && startsWithCI ps cs

/-- The apostrophe character, written via its code point. -/
def apos : Char := Char.ofNat 39

/-- The eight negative trigger phrases of the source
(src/search.py lines 92-95). -/
def negative_triggers : List (List Char) :=
  ["but not".data, "without".data, "and not".data, "except".data,
   "do not have".data, "don".data ++ [apos] ++ "t have".data,
   "not including".data, "excluding".data]

/-- The alternatives of the compiled pattern of the source: joining the
triggers with the alternation bar and concatenating one space on each
side attaches the spaces only to the first and the last alternative,
because alternation binds looser than concatenation. -/
def trigger_alternatives : List (List Char) :=
  [" but not".data, "without".data, "and not".data, "except".data,
   "do not have".data, "don".data ++ [apos] ++ "t have".data,
   "not including".data, "excluding ".data]

/-- At position i of the text, the first alternative (in listed order)
that matches case-insensitively; returns its length. -/
def matchAltAt (s : List Char) (i : Nat) : Option Nat :=
  trigger_alternatives.findSome? fun a =>
    if startsWithCI a (s.drop i) then some a.length else none

/-- The semantics of `trigger_pattern.search(user_query)`: the leftmost
match, as a (start, end) pair of character positions. -/
def findTrigger (s : List Char) : Option (Nat × Nat) :=
  (List.range (s.length + 1)).findSome? fun i =>
    (matchAltAt s i).map fun len => (i, i + len)

/-- Python str.strip(): remove leading and trailing whitespace. -/
def pyStrip (s : List Char) : List Char :=
  ((s.dropWhile Char.isWhitespace).reverse.dropWhile Char.isWhitespace).reverse

/-- The parsed_json dictionary returned by get_structured_query. -/
structure ParsedQuery where
  positive_query : List Char
  negative_query : List Char
deriving DecidableEq, Repr

/-- get_structured_query (src/search.py lines 84-132): if the pattern
matches, the positive part is everything before the match, stripped, and
the negative part is everything after it, stripped; otherwise the
positive part is the whole query and the negative part is empty. -/
def get_structured_query (q : List Char) : ParsedQuery :=
  match findTrigger q with
  | none => ⟨q, []⟩
  | some (s, e) => ⟨pyStrip (q.take s), pyStrip (q.drop e)⟩

/-! ### Catalog items and load-time integrity check -/

/-- A catalog entry of database.json.  Only the field the load-time
recovery filter inspects is modelled: the optional Generated
Description text. -/
structure Item where
  genDescription : Option (List Char)
deriving DecidableEq, Repr

/-- Outcome of the load-time integrity check: either the process exits
before serving, or it proceeds to serve with the (possibly filtered)
item list. -/
inductive LoadOutcome where
  | fatal
  | serve (data : List Item)
deriving DecidableEq, Repr

/-- Integrity check of load_resources in src/search.py (lines 55-68):
when the item count exceeds the embedding row count, items lacking the
Generated Description field are filtered out; a residual mismatch only
prints a CRITICAL WARNING, and the process proceeds to serve in every
case. -/
def load_check_src (data : List Item) (embedLen : Nat) : LoadOutcome :=
  LoadOutcome.serve
    (if embedLen < data.length then
      data.filter (fun it => it.genDescription.isSome)
    else data)

/-- Integrity check of load_resources in src/design/search.py
(lines 53-59): any count mismatch calls sys.exit(1); no filtering
recovery is attempted. -/
def load_check_design (data : List Item) (embedLen : Nat) : LoadOutcome :=
  if data.length = embedLen then LoadOutcome.serve data else LoadOutcome.fatal

/-! ### Ranking

The source ranks with `np.argsort(final_scores)` followed by `[::-1]`.
The default argsort kind of numpy sorts ascending but leaves the
relative order of equal keys unspecified (its introsort is unstable
beyond the insertion-sort cutoff of 16 elements).  An executable
embedding must pick one concrete tie order; `argsortAsc` picks the
stable one (score ascending, then index ascending), realised as the
sort of `0, ..., N-1` by that lexicographic order with the insertion
sort of Mathlib.  Every theorem below is insensitive to this choice:
each either needs only that argsort yields a score-sorted permutation,
which every argsort kind guarantees, or evaluates a two-element vector,
for which numpy runs its insertion-sort path and is stable. -/

/-- Score of index i in a score vector (every index produced by argsort
is in bounds, so the default is never used there). -/
def scoreAt (scores : List ℚ) (i : Nat) : ℚ := scores.getD i 0

/-- The comparison np.argsort sorts indices by: score ascending, ties by
index ascending (stability). -/
def keyLe (scores : List ℚ) (i j : Nat) : Prop :=
  scoreAt scores i < scoreAt scores j ∨
    (scoreAt scores i = scoreAt scores j ∧ i ≤ j)

instance keyLeDecidable (scores : List ℚ) : DecidableRel (keyLe scores) :=
  fun _ _ => inferInstanceAs (Decidable (_ ∨ _))

instance keyLeTotal (scores : List ℚ) : IsTotal Nat (keyLe scores) := by
  constructor
  intro i j
  rcases lt_trichotomy (scoreAt scores i) (scoreAt scores j) with h | h | h
  · exact Or.inl (Or.inl h)
  · rcases Nat.le_total i j with hij | hij
    · exact Or.inl (Or.inr ⟨h, hij⟩)
    · exact Or.inr (Or.inr ⟨h.symm, hij⟩)
  · exact Or.inr (Or.inl h)

instance keyLeTrans (scores : List ℚ) : IsTrans Nat (keyLe scores) := by
  constructor
  intro i j k hij hjk
  rcases hij with hij | ⟨hij, hij2⟩
  · rcases hjk with hjk | ⟨hjk, _⟩
    · exact Or.inl (hij.trans hjk)
    · exact Or.inl (hjk ▸ hij)
  · rcases hjk with hjk | ⟨hjk, hjk2⟩
    · exact Or.inl (hij ▸ hjk)
    · exact Or.inr ⟨hij.trans hjk, hij2.trans hjk2⟩

/-- Embedding of np.argsort(final_scores): the indices 0..N-1 sorted
ascending by score, equal scores kept in ascending index order. -/
def argsortAsc (scores : List ℚ) : List Nat :=
  List.insertionSort (keyLe scores) (List.range scores.length)

/-- Embedding of np.argsort(final_scores)[::-1]
(src/search.py line 183). -/
def argsortDesc (scores : List ℚ) : List Nat := (argsortAsc scores).reverse

/-! ### Result selection and formatting -/

/-- A formatted search result: the backing item plus the score and rank
the formatting loops attach. -/
structure SearchResult where
  item : Item
  score : ℚ
  rank : Nat
deriving DecidableEq, Repr

/-- The maximum number of results of the threshold-filtered loop
(literal 6 in src/search.py lines 190-191). -/
def max_results : Nat := 6

/-- The score threshold of the threshold-filtered loop (literal 0.5 in
src/search.py line 197). -/
def score_threshold : ℚ := 1 / 2

/-- The scan-and-format loop of perform_search in src/search.py
(lines 186-206): walk the sorted indices, stop once the budget
(6 minus the number of collected results) is exhausted, keep an index
when its score is strictly below 0.5 and it is in bounds for the item
list, attaching consecutive ranks; out-of-bounds indices are skipped. -/
def selectFiltered (data : List Item) (scores : List ℚ) :
    List Nat → Nat → Nat → List SearchResult
  | [], _, _ => []
  | idx :: rest, budget, rank =>
    match budget with
    | 0 => []
    | b + 1 =>
      if scoreAt scores idx < score_threshold then
        if h : idx < data.length then
          ⟨data.get ⟨idx, h⟩, scoreAt scores idx, rank⟩ ::
            selectFiltered data scores rest b (rank + 1)
        else
          selectFiltered data scores rest (b + 1) rank
      else
        selectFiltered data scores rest (b + 1) rank

/-- Sections 4-5 of perform_search in src/search.py: sort all indices by
final score descending and run the filtered formatting loop with budget
6 and first rank 1. -/
def performSearchFiltered (data : List Item) (final : List ℚ) :
    List SearchResult :=
  selectFiltered data final (argsortDesc final) max_results 1

/-- Python list slice l[-k:] for a nonnegative k: the last k elements,
except that -0 means 0, so k = 0 yields the whole list. -/
def sliceLastK (k : Nat) (l : List Nat) : List Nat :=
  if k = 0 then l else l.drop (l.length - k)

/-- Embedding of np.argsort(final_scores)[-top_k:][::-1]
(src/design/search.py line 160). -/
def topKIndices (scores : List ℚ) (k : Nat) : List Nat :=
  (sliceLastK k (argsortAsc scores)).reverse

/-- The formatting loop of perform_search in src/design/search.py
(lines 163-174): every selected index is formatted with its score and a
consecutive rank starting from the given counter; data[idx] carries no
bounds guard in this variant (the load check of this module guarantees
the counts agree). -/
def rankResults (data : List Item) (scores : List ℚ) :
    List Nat → Nat → List SearchResult
  | [], _ => []
  | idx :: rest, rank =>
    ⟨data.getD idx ⟨none⟩, scoreAt scores idx, rank⟩ ::
      rankResults data scores rest (rank + 1)

/-- Sections 4-5 of perform_search in src/design/search.py: take the
top_k indices by final score descending and format them with ranks
from 1. -/
def performSearchTopK (data : List Item) (scores : List ℚ) (k : Nat) :
    List SearchResult :=
  rankResults data scores (topKIndices scores k) 1

/-! ### The request pipeline

model.encode plus cosine_similarity against the loaded embedding matrix
are the external collaborators of the pipeline; they are abstracted as a
function `simOf` from a query text to the vector of similarities of every
catalog row.  The fallible variant returns Except, modelling an embedding
provider that may raise; the source wraps the whole request body in
try/except and returns [] on any exception. -/

/-- The penalty weight of the re-ranking step (literal 1.0 in
src/search.py line 170). -/
def penalty_weight : ℚ := 1

/-- Final score computation of perform_search (src/search.py lines
158-176): with a non-empty negative clause the final vector is
positive minus negative times penalty_weight, otherwise the positive
similarities unchanged. -/
def finalScoresOf (simOf : List Char → List ℚ) (q : List Char) : List ℚ :=
  let parsed := get_structured_query q
  let pos := simOf parsed.positive_query
  if parsed.negative_query = [] then pos
  else pos.zipWith (fun p n => p - n * penalty_weight)
    (simOf parsed.negative_query)

/-- The body of the try block of perform_search in src/search.py
(lines 146-208), with the fallible provider threaded through Except:
parse, embed the positive clause, embed the negative clause when
non-empty, re-rank, then filter and format. -/
def searchBody (simOf : List Char → Except Unit (List ℚ))
    (data : List Item) (q : List Char) : Except Unit (List SearchResult) := do
  let parsed := get_structured_query q
  let pos ← simOf parsed.positive_query
  if parsed.negative_query = [] then
    pure (performSearchFiltered data pos)
  else do
    let neg ← simOf parsed.negative_query
    pure (performSearchFiltered data
      (pos.zipWith (fun p n => p - n * penalty_weight) neg))

/-- perform_search of src/search.py: the try/except wrapper around the
body; any failure is caught and an empty result list returned
(lines 141-210). -/
def perform_search (simOf : List Char → Except Unit (List ℚ))
    (data : List Item) (q : List Char) : List SearchResult :=
  match searchBody simOf data q with
  | Except.ok r => r
  | Except.error _ => []

/-! ### Helper lemmas -/

theorem get_structured_query_of_no_trigger {q : List Char}
    (h : findTrigger q = none) : get_structured_query q = ⟨q, []⟩ := by
  unfold get_structured_query
  rw [h]

theorem getD_zipWith_sub (f : ℚ → ℚ → ℚ) :
    ∀ (a b : List ℚ) (i : Nat), i < a.length → i < b.length →
      (a.zipWith f b).getD i 0 = f (a.getD i 0) (b.getD i 0)
  | [], _, i, ha, _ => absurd ha (Nat.not_lt_zero i)
  | _ :: _, [], i, _, hb => absurd hb (Nat.not_lt_zero i)
  | _ :: _, _ :: _, 0, _, _ => rfl
  | x :: a, y :: b, i + 1, ha, hb => by
    simpa using getD_zipWith_sub f a b i (Nat.lt_of_succ_lt_succ ha)
      (Nat.lt_of_succ_lt_succ hb)

theorem argsortAsc_pairwise (scores : List ℚ) :
    (argsortAsc scores).Pairwise (keyLe scores) :=
  List.sorted_insertionSort (keyLe scores) (List.range scores.length)

theorem argsortAsc_perm (scores : List ℚ) :
    (argsortAsc scores).Perm (List.range scores.length) :=
  List.perm_insertionSort (keyLe scores) (List.range scores.length)

theorem argsortAsc_length (scores : List ℚ) :
    (argsortAsc scores).length = scores.length := by
  rw [(argsortAsc_perm scores).length_eq, List.length_range]

theorem argsortDesc_pairwise_le (scores : List ℚ) :
    (argsortDesc scores).Pairwise
      (fun i j => scoreAt scores j ≤ scoreAt scores i) := by
  unfold argsortDesc
  rw [List.pairwise_reverse]
  refine (argsortAsc_pairwise scores).imp ?_
  intro i j hij
  rcases hij with hlt | ⟨heq, _⟩
  · exact le_of_lt hlt
  · exact le_of_eq heq

theorem sliceLastK_sublist (k : Nat) (l : List Nat) :
    List.Sublist (sliceLastK k l) l := by
  unfold sliceLastK
  by_cases hk : k = 0
  · rw [if_pos hk]
  · rw [if_neg hk]
    exact List.drop_sublist _ l

theorem topKIndices_pairwise_le (scores : List ℚ) (k : Nat) :
    (topKIndices scores k).Pairwise
      (fun i j => scoreAt scores j ≤ scoreAt scores i) := by
  unfold topKIndices
  rw [List.pairwise_reverse]
  refine List.Pairwise.imp ?_
    ((argsortAsc_pairwise scores).sublist (sliceLastK_sublist k _))
  intro i j hij
  rcases hij with hlt | ⟨heq, _⟩
  · exact le_of_lt hlt
  · exact le_of_eq heq

theorem topKIndices_length (scores : List ℚ) (k : Nat) (hk : k ≠ 0) :
    (topKIndices scores k).length = min k scores.length := by
  unfold topKIndices sliceLastK
  rw [if_neg hk, List.length_reverse, List.length_drop, argsortAsc_length]
  omega

theorem rankResults_length (data : List Item) (scores : List ℚ) :
    ∀ (idxs : List Nat) (rank : Nat),
      (rankResults data scores idxs rank).length = idxs.length
  | [], _ => rfl
  | _ :: rest, rank => by
    simpa [rankResults] using rankResults_length data scores rest (rank + 1)

theorem rankResults_map_rank (data : List Item) (scores : List ℚ) :
    ∀ (idxs : List Nat) (rank : Nat),
      (rankResults data scores idxs rank).map SearchResult.rank =
        List.range' rank idxs.length
  | [], _ => rfl
  | idx :: rest, rank => by
    rw [rankResults, List.map_cons,
      rankResults_map_rank data scores rest (rank + 1), List.length_cons,
      List.range'_succ rank rest.length 1]

theorem rankResults_map_score (data : List Item) (scores : List ℚ) :
    ∀ (idxs : List Nat) (rank : Nat),
      (rankResults data scores idxs rank).map SearchResult.score =
        idxs.map (scoreAt scores)
  | [], _ => rfl
  | idx :: rest, rank => by
    rw [rankResults, List.map_cons, List.map_cons,
      rankResults_map_score data scores rest (rank + 1)]

theorem mem_selectFiltered (data : List Item) (scores : List ℚ) :
    ∀ (idxs : List Nat) (budget rank : Nat)
      (r : SearchResult), r ∈ selectFiltered data scores idxs budget rank →
      r.score < score_threshold ∧ r.item ∈ data ∧
        ∃ i ∈ idxs, r.score = scoreAt scores i
  | [], budget, rank, r, hr => absurd hr (List.not_mem_nil r)
  | idx :: rest, 0, rank, r, hr => absurd hr (List.not_mem_nil r)
  | idx :: rest, b + 1, rank, r, hr => by
    rw [selectFiltered] at hr
    by_cases hth : scoreAt scores idx < score_threshold
    · rw [if_pos hth] at hr
      by_cases hb : idx < data.length
      · rw [dif_pos hb] at hr
        rcases List.mem_cons.mp hr with hhead | htail
        · subst hhead
          exact ⟨hth, List.get_mem data idx hb,
            idx, List.mem_cons_self idx rest, rfl⟩
        · obtain ⟨hs, hd, i, hi, he⟩ :=
            mem_selectFiltered data scores rest b (rank + 1) r htail
          exact ⟨hs, hd, i, List.mem_cons_of_mem idx hi, he⟩
      · rw [dif_neg hb] at hr
        obtain ⟨hs, hd, i, hi, he⟩ :=
          mem_selectFiltered data scores rest (b + 1) rank r hr
        exact ⟨hs, hd, i, List.mem_cons_of_mem idx hi, he⟩
    · rw [if_neg hth] at hr
      obtain ⟨hs, hd, i, hi, he⟩ :=
        mem_selectFiltered data scores rest (b + 1) rank r hr
      exact ⟨hs, hd, i, List.mem_cons_of_mem idx hi, he⟩

theorem selectFiltered_length_le (data : List Item) (scores : List ℚ) :
    ∀ (idxs : List Nat) (budget rank : Nat),
      (selectFiltered data scores idxs budget rank).length ≤ budget
  | [], budget, rank => Nat.zero_le budget
  | idx :: rest, 0, rank => Nat.le_refl 0
  | idx :: rest, b + 1, rank => by
    rw [selectFiltered]
    by_cases hth : scoreAt scores idx < score_threshold
    · rw [if_pos hth]
      by_cases hb : idx < data.length
      · rw [dif_pos hb, List.length_cons]
        exact Nat.succ_le_succ (selectFiltered_length_le data scores rest b _)
      · rw [dif_neg hb]
        exact selectFiltered_length_le data scores rest (b + 1) rank
    · rw [if_neg hth]
      exact selectFiltered_length_le data scores rest (b + 1) rank

theorem selectFiltered_map_rank (data : List Item) (scores : List ℚ) :
    ∀ (idxs : List Nat) (budget rank : Nat),
      (selectFiltered data scores idxs budget rank).map SearchResult.rank =
        List.range' rank (selectFiltered data scores idxs budget rank).length
  | [], budget, rank => rfl
  | idx :: rest, 0, rank => rfl
  | idx :: rest, b + 1, rank => by
    rw [selectFiltered]
    by_cases hth : scoreAt scores idx < score_threshold
    · rw [if_pos hth]
      by_cases hb : idx < data.length
      · rw [dif_pos hb, List.map_cons, List.length_cons,
          List.range'_succ rank _ 1,
          selectFiltered_map_rank data scores rest b (rank + 1)]
      · rw [dif_neg hb]
        exact selectFiltered_map_rank data scores rest (b + 1) rank
    · rw [if_neg hth]
      exact selectFiltered_map_rank data scores rest (b + 1) rank

theorem selectFiltered_pairwise (data : List Item) (scores : List ℚ) :
    ∀ (idxs : List Nat) (budget rank : Nat),
      idxs.Pairwise (fun i j => scoreAt scores j ≤ scoreAt scores i) →
      (selectFiltered data scores idxs budget rank).Pairwise
        (fun a b => b.score ≤ a.score)
  | [], budget, rank, _ => List.Pairwise.nil
  | idx :: rest, 0, rank, _ => List.Pairwise.nil
  | idx :: rest, b + 1, rank, hpw => by
    rw [selectFiltered]
    rcases List.pairwise_cons.mp hpw with ⟨hhead, hrest⟩
    by_cases hth : scoreAt scores idx < score_threshold
    · rw [if_pos hth]
      by_cases hb : idx < data.length
      · rw [dif_pos hb]
        refine List.pairwise_cons.mpr ⟨?_, ?_⟩
        · intro r hr
          obtain ⟨_, _, i, hi, he⟩ :=
            mem_selectFiltered data scores rest b (rank + 1) r hr
          exact he ▸ hhead i hi
        · exact selectFiltered_pairwise data scores rest b (rank + 1) hrest
      · rw [dif_neg hb]
        exact selectFiltered_pairwise data scores rest (b + 1) rank hrest
    · rw [if_neg hth]
      exact selectFiltered_pairwise data scores rest (b + 1) rank hrest

/-- Claim C1 (code_bug evidence).  The source comment above the trigger
list says the triggers are matched only when surrounded by spaces, but
the compiled pattern anchors the leading space only to the first
alternative and the trailing space only to the last, so the middle
triggers match inside longer words: in "red excepting blue" the trigger
"except" matches embedded inside "excepting" (at positions 4-10), and
the query is split, where the claim requires no match at all (the
parser should return the whole query as positive_query and an empty
negative_query). -/
theorem embedded_trigger_matched :
    findTrigger "red excepting blue".data = some (4, 10) ∧
      get_structured_query "red excepting blue".data =
        ⟨"red".data, "ing blue".data⟩ ∧
      get_structured_query "red excepting blue".data ≠
        ⟨"red excepting blue".data, []⟩ := by
  refine ⟨by rfl, by rfl, by decide⟩

/-- Claim C7 (code_bug evidence).  With X = "excepting", T = "without",
Y = "lace", the query "X T Y" is mis-parsed: "except" matches embedded
inside X at position 0, so positive_query is empty and negative_query
is "ing without lace", where the claim requires positive "excepting"
and negative "lace". -/
theorem embedded_trigger_breaks_split :
    "excepting without lace".data =
        "excepting".data ++ [' '] ++ "without".data ++ [' '] ++ "lace".data ∧
      get_structured_query "excepting without lace".data =
        ⟨[], "ing without lace".data⟩ ∧
      get_structured_query "excepting without lace".data ≠
        ⟨"excepting".data, "lace".data⟩ := by
  refine ⟨by rfl, by rfl, by decide⟩

/-- Claim C6: when no negative trigger matches the query, the parser
returns the full original query as positive_query with an empty
negative_query, and the final score vector is exactly the positive
similarity vector (no penalty is applied). -/
theorem no_trigger_no_penalty (simOf : List Char → List ℚ) (q : List Char)
    (h : findTrigger q = none) :
    get_structured_query q = ⟨q, []⟩ ∧ finalScoresOf simOf q = simOf q := by
  have hp := get_structured_query_of_no_trigger h
  refine ⟨hp, ?_⟩
  unfold finalScoresOf
  rw [hp]
  rfl

/-- Witness for C6 at the concrete query "red sofa". -/
theorem no_trigger_no_penalty_witness :
    findTrigger "red sofa".data = none ∧
      get_structured_query "red sofa".data = ⟨"red sofa".data, []⟩ ∧
      finalScoresOf (fun _ => [1, 0]) "red sofa".data = [1, 0] := by
  refine ⟨by rfl, no_trigger_no_penalty (fun _ => [1, 0]) "red sofa".data (by rfl)⟩

/-- Claim C5: when the parsed negative clause is non-empty, every final
score is the positive similarity minus penalty_weight times the
negative similarity, and penalty_weight is the fixed constant 1. -/
theorem negative_rerank_formula (simOf : List Char → List ℚ) (q : List Char)
    (h : (get_structured_query q).negative_query ≠ []) :
    penalty_weight = 1 ∧
      ∀ i : Nat, i < (simOf (get_structured_query q).positive_query).length →
        i < (simOf (get_structured_query q).negative_query).length →
        (finalScoresOf simOf q).getD i 0 =
          (simOf (get_structured_query q).positive_query).getD i 0 -
            penalty_weight *
              (simOf (get_structured_query q).negative_query).getD i 0 := by
  refine ⟨rfl, fun i hp hn => ?_⟩
  unfold finalScoresOf
  rw [if_neg h, getD_zipWith_sub _ _ _ i hp hn]
  ring

/-- Witness for C5 at the concrete query "sofa without lace" with a
one-row catalog whose similarity to every text is 1. -/
theorem negative_rerank_formula_witness :
    (get_structured_query "sofa without lace".data).negative_query ≠ [] ∧
      (finalScoresOf (fun _ => [1]) "sofa without lace".data).getD 0 0 =
        ((fun _ => [(1 : ℚ)])
            (get_structured_query "sofa without lace".data).positive_query).getD
            0 0 -
          penalty_weight *
            ((fun _ => [(1 : ℚ)])
                (get_structured_query
                  "sofa without lace".data).negative_query).getD 0 0 := by
  refine ⟨by decide,
    (negative_rerank_formula (fun _ => [1]) "sofa without lace".data
          (by decide)).2 0 (by decide) (by decide)⟩

/-- Claim C9: any failure raised inside the search body (in particular
by the embedding provider) is caught by the try/except of
perform_search, which returns an empty result list to the caller; no
exception propagates out, and the catalog passed in is read-only
throughout. -/
theorem provider_failure_degrades (simOf : List Char → Except Unit (List ℚ))
    (data : List Item) (q : List Char) (e : Unit)
    (h : searchBody simOf data q = Except.error e) :
    perform_search simOf data q = [] := by
  unfold perform_search
  rw [h]

/-- Witness for C9 with a provider that always fails. -/
theorem provider_failure_degrades_witness :
    searchBody (fun _ => Except.error ()) [] "sofa".data =
        Except.error () ∧
      perform_search (fun _ => Except.error ()) [] "sofa".data = [] := by
  refine ⟨by rfl,
    provider_failure_degrades (fun _ => Except.error ()) [] "sofa".data ()
      (by rfl)⟩

/-- Claim C2 (counterexample).  On the score vector [1, 1] the two items
tie, and np.argsort(scores)[::-1] puts index 1 before index 0: on two
elements numpy runs its (stable) insertion-sort path, the ascending
argsort returns [0, 1], and the final reversal flips it to [1, 0], so
the item with the HIGHER catalog index appears first, where the claim
requires the lower index to win the tie (order [0, 1]). -/
theorem tie_break_counterexample :
    argsortDesc [(1 : ℚ), 1] = [1, 0] ∧ ([1, 0] : List Nat) ≠ [0, 1] := by
  refine ⟨by rfl, by decide⟩

/-- Claim C2 as amended: the ranking orders items by final score
descending (scores are non-increasing along the output) and is a
permutation of all catalog indices, and it is deterministic, being a
pure function of the score vector; but the lower-index-wins tie rule of
the claim fails (see the counterexample), and since the default argsort
kind of numpy leaves the order of equal keys unspecified, no particular
tie order is asserted in its place. -/
theorem rank_order_amended (scores : List ℚ) :
    (argsortDesc scores).Perm (List.range scores.length) ∧
      (argsortDesc scores).Pairwise
        (fun i j => scoreAt scores j ≤ scoreAt scores i) :=
  ⟨((argsortAsc scores).reverse_perm).trans (argsortAsc_perm scores),
    argsortDesc_pairwise_le scores⟩

/-- Claim C4: in threshold-filtered mode every returned result has
final score strictly below the 0.5 threshold (items at or above it are
discarded no matter how high they rank), the results come out in
descending score order, and at most 6 results are returned. -/
theorem threshold_mode_contract (data : List Item) (final : List ℚ) :
    (∀ r ∈ performSearchFiltered data final, r.score < score_threshold) ∧
      (performSearchFiltered data final).length ≤ max_results ∧
      (performSearchFiltered data final).Pairwise
        (fun a b => b.score ≤ a.score) := by
  refine ⟨?_, ?_, ?_⟩
  · intro r hr
    exact (mem_selectFiltered data final (argsortDesc final) max_results 1
      r hr).1
  · exact selectFiltered_length_le data final (argsortDesc final)
      max_results 1
  · exact selectFiltered_pairwise data final (argsortDesc final)
      max_results 1 (argsortDesc_pairwise_le final)

/-- Claim C10: when the score vector is longer than the item list, the
explicit bounds guard of the formatting loop skips every out-of-range
sorted index (every returned result is backed by a real catalog item),
and the ranks of the returned results are still consecutive starting
at 1. -/
theorem mismatch_bounds_guard (data : List Item) (final : List ℚ)
    (_h : data.length < final.length) :
    (performSearchFiltered data final).map SearchResult.rank =
        List.range' 1 (performSearchFiltered data final).length ∧
      ∀ r ∈ performSearchFiltered data final, r.item ∈ data := by
  refine ⟨selectFiltered_map_rank data final (argsortDesc final)
    max_results 1, ?_⟩
  intro r hr
  exact (mem_selectFiltered data final (argsortDesc final) max_results 1
    r hr).2.1

/-- Witness for C10: one catalog item against two score rows; the
out-of-bounds index 1 is skipped and the single surviving result has
rank 1. -/
theorem mismatch_bounds_guard_witness :
    ([Item.mk none] : List Item).length < ([0, 0] : List ℚ).length ∧
      (performSearchFiltered [Item.mk none] [0, 0]).map SearchResult.rank =
          List.range' 1
            (performSearchFiltered [Item.mk none] [0, 0]).length ∧
        ∀ r ∈ performSearchFiltered [Item.mk none] [0, 0],
          r.item ∈ ([Item.mk none] : List Item) := by
  refine ⟨by decide, mismatch_bounds_guard [Item.mk none] [0, 0] (by decide)⟩

/-- Claim C8 (counterexample).  With one catalog item and k = 0 the
fixed-K search must return 0 results by the claim (N = 1 ≥ k = 0), but
the Python slice final_scores_argsort[-0:] is the whole array, so all
N items are returned. -/
theorem topk_zero_counterexample :
    (performSearchTopK [Item.mk none] [(0 : ℚ)] 0).length = 1 ∧
      (1 : Nat) ≠ 0 := by
  refine ⟨by rfl, by decide⟩

/-- Claim C8 as amended: for every requested k ≥ 1 (the slice [-k:]
degenerates for k = 0) and a catalog whose score vector has one row per
item, fixed-K mode returns exactly min k N results, carrying the
consecutive ranks 1, 2, ... in descending score order. -/
theorem topk_mode_amended (data : List Item) (scores : List ℚ) (k : Nat)
    (hk : 1 ≤ k) (hlen : scores.length = data.length) :
    (performSearchTopK data scores k).length = min k data.length ∧
      (performSearchTopK data scores k).map SearchResult.rank =
        List.range' 1 (min k data.length) ∧
      (performSearchTopK data scores k).Pairwise
        (fun a b => b.score ≤ a.score) := by
  have hk0 : k ≠ 0 := Nat.one_le_iff_ne_zero.mp hk
  have hlen2 : (topKIndices scores k).length = min k data.length := by
    rw [topKIndices_length scores k hk0, hlen]
  refine ⟨?_, ?_, ?_⟩
  · rw [performSearchTopK, rankResults_length, hlen2]
  · rw [performSearchTopK, rankResults_map_rank, hlen2]
  · rw [← List.pairwise_map (f := SearchResult.score)
      (R := fun a b => (b : ℚ) ≤ a), performSearchTopK,
      rankResults_map_score, List.pairwise_map]
    exact topKIndices_pairwise_le scores k

/-- Witness for C8 (amended) with one item, one score row and k = 1. -/
theorem topk_mode_amended_witness :
    (1 : Nat) ≤ 1 ∧ ([(0 : ℚ)] : List ℚ).length = ([Item.mk none] : List Item).length ∧
      ((performSearchTopK [Item.mk none] [(0 : ℚ)] 1).length =
          min 1 ([Item.mk none] : List Item).length ∧
        (performSearchTopK [Item.mk none] [(0 : ℚ)] 1).map SearchResult.rank =
          List.range' 1 (min 1 ([Item.mk none] : List Item).length) ∧
        (performSearchTopK [Item.mk none] [(0 : ℚ)] 1).Pairwise
          (fun a b => b.score ≤ a.score)) := by
  refine ⟨by decide, by decide,
    topk_mode_amended [Item.mk none] [(0 : ℚ)] 1 (by decide) (by decide)⟩

/-- Claim C3 (counterexample).  Two items that both carry the
index-time description field against a single embedding row: the count
exceeds the row count, the recovery filter removes nothing, the counts
still disagree, and load_resources of src/search.py merely prints a
critical warning and proceeds to serve — it does not fail fatally, so
search requests ARE served with a mismatched catalog. -/
theorem load_mismatch_counterexample :
    load_check_src [Item.mk (some "a".data), Item.mk (some "b".data)] 1 =
        LoadOutcome.serve
          [Item.mk (some "a".data), Item.mk (some "b".data)] ∧
      ([Item.mk (some "a".data), Item.mk (some "b".data)] :
          List Item).length ≠ 1 := by
  refine ⟨by rfl, by decide⟩

/-- Claim C3 as amended: when the item count exceeds the embedding row
count, src/search.py filters out the items lacking the index-time
description field and re-checks the count, but a residual mismatch only
produces a critical warning and the process proceeds to serve; the
fatal exit on an unresolved mismatch exists only in
src/design/search.py, which performs no filtering recovery. -/
theorem load_mismatch_amended (data : List Item) (embedLen : Nat) :
    (data.length ≤ embedLen →
        load_check_src data embedLen = LoadOutcome.serve data) ∧
      (embedLen < data.length →
        load_check_src data embedLen =
          LoadOutcome.serve
            (data.filter (fun it => it.genDescription.isSome))) ∧
      (data.length ≠ embedLen →
        load_check_design data embedLen = LoadOutcome.fatal) ∧
      (data.length = embedLen →
        load_check_design data embedLen = LoadOutcome.serve data) := by
  refine ⟨?_, ?_, ?_, ?_⟩
  · intro h
    rw [load_check_src, if_neg (Nat.not_lt.mpr h)]
  · intro h
    rw [load_check_src, if_pos h]
  · intro h
    rw [load_check_design, if_neg h]
  · intro h
    rw [load_check_design, if_pos h]

/-- Witness for C3 (amended): two described items against one embedding
row; the src loader filters and serves anyway, the design loader exits
fatally. -/
theorem load_mismatch_amended_witness :
    (1 : Nat) <
        ([Item.mk (some "x".data), Item.mk none] : List Item).length ∧
      load_check_src [Item.mk (some "x".data), Item.mk none] 1 =
        LoadOutcome.serve
          (([Item.mk (some "x".data), Item.mk none] : List Item).filter
            (fun it => it.genDescription.isSome)) ∧
      ([Item.mk (some "x".data), Item.mk none] : List Item).length ≠ 1 ∧
      load_check_design [Item.mk (some "x".data), Item.mk none] 1 =
        LoadOutcome.fatal := by
  refine ⟨by decide,
    (load_mismatch_amended [Item.mk (some "x".data), Item.mk none] 1).2.1
      (by decide),
    by decide,
    (load_mismatch_amended [Item.mk (some "x".data), Item.mk none] 1).2.2.1
      (by decide)⟩

end BananaBath
